import Mathlib

/-!
Verification development for the isolated code-execution subsystem
(sandbox manager, execution kernel, safety validator, access-control
middleware).  Definitions are shallow embeddings of the Python source:
`sandbox/server.py`, `sandbox/kernel_server.py`, `sandbox/middleware.py`,
`tools/dynamic_tools.py`.  External effects (Docker, the network call to a
kernel, Python's `ast.parse`, `exec`) are passed in as explicit parameters,
so every handler is a pure function of its inputs and the registry state.
-/

namespace LRA

/-! ## Pattern screen (`sandbox/server.py`, `DANGEROUS_PATTERNS` / `validate_code`)

The regex alternation is modelled as a direct search procedure over the
lower-cased character list (the source compiles the patterns with
`re.IGNORECASE` and calls `.search`).  `\s` is modelled as ASCII whitespace
and `\w` (for `\b` boundaries) as ASCII alphanumerics plus underscore. -/

def isWSChar (c : Char) : Bool :=
  c = ' ' || c = '\t' || c = '\n' || c = '\r' || c = '\x0b' || c = '\x0c'

def isWordChar (c : Char) : Bool :=
  c.isAlpha || c.isDigit || c = '_'

/-- Match a literal string at the head of the input, returning the rest. -/
def dropLit : List Char → List Char → Option (List Char)
  | [], l => some l
  | _ :: _, [] => none
  | p :: ps, c :: cs => if c = p then dropLit ps cs else none

def afterLit (s : String) (l : List Char) : Option (List Char) :=
  dropLit s.data l

/-- Consume `\s*` (greedy; every pattern continues with a non-space char). -/
def dropWSStar : List Char → List Char
  | [] => []
  | c :: cs => if isWSChar c then dropWSStar cs else c :: cs

/-- Consume `\s+` (greedy). -/
def dropWSPlus : List Char → Option (List Char)
  | [] => none
  | c :: cs => if isWSChar c then some (dropWSStar cs) else none

/-- `\b` after a word character: next char must not be a word char. -/
def wordEnd : List Char → Bool
  | [] => true
  | c :: _ => !isWordChar c

/-- `os\.system\s*\(` -/
def osSystemAt (l : List Char) : Bool :=
  match afterLit "os.system" l with
  | some r => (afterLit "(" (dropWSStar r)).isSome
  | none => false

/-- `subprocess\s*\.\s*` (the trailing `\s*` matches the empty string). -/
def subprocessDotAt (l : List Char) : Bool :=
  match afterLit "subprocess" l with
  | some r => (afterLit "." (dropWSStar r)).isSome
  | none => false

/-- `exec\s*\(` -/
def execCallAt (l : List Char) : Bool :=
  match afterLit "exec" l with
  | some r => (afterLit "(" (dropWSStar r)).isSome
  | none => false

/-- `eval\s*\(` -/
def evalCallAt (l : List Char) : Bool :=
  match afterLit "eval" l with
  | some r => (afterLit "(" (dropWSStar r)).isSome
  | none => false

/-- `__import__\s*\(` -/
def dunderImportCallAt (l : List Char) : Bool :=
  match afterLit "__import__" l with
  | some r => (afterLit "(" (dropWSStar r)).isSome
  | none => false

/-- `open\s*\(\s*['"]/` -/
def openSlashAt (l : List Char) : Bool :=
  match afterLit "open" l with
  | some r =>
    match afterLit "(" (dropWSStar r) with
    | some r2 =>
      let r3 := dropWSStar r2
      (afterLit "\x27/" r3).isSome || (afterLit "\"/" r3).isSome
    | none => false
  | none => false

/-- `rm\s+-rf` -/
def rmRfAt (l : List Char) : Bool :=
  match afterLit "rm" l with
  | some r =>
    match dropWSPlus r with
    | some r2 => (afterLit "-rf" r2).isSome
    | none => false
  | none => false

/-- `rm\s+-r\s+/` -/
def rmRSlashAt (l : List Char) : Bool :=
  match afterLit "rm" l with
  | some r =>
    match dropWSPlus r with
    | some r2 =>
      match afterLit "-r" r2 with
      | some r3 =>
        match dropWSPlus r3 with
        | some r4 => (afterLit "/" r4).isSome
        | none => false
      | none => false
    | none => false
  | none => false

/-- `import\s+NAME\b` (shared by the three `import os|subprocess|sys` patterns). -/
def importNameAt (nm : String) (l : List Char) : Bool :=
  match afterLit "import" l with
  | some r =>
    match dropWSPlus r with
    | some r2 =>
      match afterLit nm r2 with
      | some r3 => wordEnd r3
      | none => false
    | none => false
  | none => false

/-- `__builtins__` -/
def dunderBuiltinsAt (l : List Char) : Bool :=
  (afterLit "__builtins__" l).isSome

/-- `breakpoint\s*\(` -/
def breakpointCallAt (l : List Char) : Bool :=
  match afterLit "breakpoint" l with
  | some r => (afterLit "(" (dropWSStar r)).isSome
  | none => false

/-- `compile\s*\(` -/
def compileCallAt (l : List Char) : Bool :=
  match afterLit "compile" l with
  | some r => (afterLit "(" (dropWSStar r)).isSome
  | none => false

/-- Does some pattern of `DANGEROUS_PATTERNS` match at this position?
`prevW` says whether the preceding character is a word character; it
realises the leading `\b` of the patterns that have one. -/
def matchAt (prevW : Bool) (l : List Char) : Bool :=
  (!prevW &&
    (osSystemAt l || subprocessDotAt l || execCallAt l || evalCallAt l ||
     importNameAt "os" l || importNameAt "subprocess" l || importNameAt "sys" l))
  || dunderImportCallAt l || openSlashAt l || rmRfAt l || rmRSlashAt l ||
     dunderBuiltinsAt l || breakpointCallAt l || compileCallAt l

/-- `re.search` over all start positions. -/
def searchFrom : Bool → List Char → Bool
  | prevW, [] => matchAt prevW []
  | prevW, c :: cs => matchAt prevW (c :: cs) || searchFrom (isWordChar c) cs

/-- `DANGEROUS_REGEX.search(code)` as a Boolean (case-insensitive search). -/
def dangerousMatch (code : String) : Bool :=
  searchFrom false (code.data.map Char.toLower)

/-- An HTTP error raised by a handler (`fastapi.HTTPException`). -/
structure HTTPException where
  status_code : Nat
  detail : String
deriving DecidableEq

/-- `validate_code`: reject code containing dangerous patterns (400). -/
def validate_code (code : String) : Except HTTPException Unit :=
  if dangerousMatch code then
    .error ⟨400, "Code contains forbidden patterns"⟩
  else
    .ok ()

example : dangerousMatch "import os" = true := by decide
example : dangerousMatch "1+1" = false := by decide
example : dangerousMatch "print(2+2)" = false := by decide
example : dangerousMatch "return breakpoint()" = true := by decide
example : dangerousMatch "x = eval(y)" = true := by decide
example : dangerousMatch "evaluate(y)" = false := by decide
example : dangerousMatch "EVAL (y)" = true := by decide
example : dangerousMatch "charm  -rf" = true := by decide
example : dangerousMatch "reimport os" = false := by decide
example : dangerousMatch "import ossify" = false := by decide
example : dangerousMatch "open( \x27/etc/passwd\x27)" = true := by decide
example : dangerousMatch "open(path)" = false := by decide

/-! ## Sandbox manager (`sandbox/server.py`)

The module-level dict `sandboxes: dict[str, dict]` is modelled as an
association list with unique keys; `dict` deletion is `eraseKey` (removes
the key).  The Docker container handle is an opaque name.  Each handler is
a function of the registry plus explicit parameters standing for its
external effects, returning its response and the new registry. -/

/-- One registry entry, the dict
`{"id": ..., "container": ..., "port": ..., "status": ...}` stored by
`create_sandbox`.  (There is no timestamp field in the source.) -/
structure SandboxInfo where
  id : String
  container : Option String
  port : Option Nat
  status : String
deriving DecidableEq

/-- The module-level `sandboxes` registry. -/
abbrev Registry := List (String × SandboxInfo)

/-- `dict.pop`: remove a key from the registry. -/
def eraseKey (k : String) : Registry → Registry
  | [] => []
  | p :: rest => if p.1 = k then eraseKey k rest else p :: eraseKey k rest

/-- `dict` lookup (`sandboxes[sid]` / `sid in sandboxes`). -/
def lookupReg (reg : Registry) (k : String) : Option SandboxInfo :=
  match reg with
  | [] => none
  | p :: rest => if p.1 = k then some p.2 else lookupReg rest k

/-- Response model `SandboxResponse {id, status, port}`. -/
structure SandboxResponse where
  id : String
  status : String
  port : Option Nat
deriving DecidableEq

/-- Outcome of the HTTP POST to a kernel's `/execute`: either the request
errors (`httpx.RequestError`, carrying its message) or a JSON object whose
fields are each optional (the handler applies `.get` defaults). -/
inductive KernelAnswer where
  | unreachable (msg : String)
  | result (type stdout stderr : Option String) (success : Option Bool)
deriving DecidableEq

/-- The JSON body returned by `execute_code` on success. -/
structure ExecReply where
  type : String
  stdout : String
  stderr : String
  success : Bool
deriving DecidableEq

/-- `create_sandbox`: reject non-python langs (400); if the Docker daemon
is unreachable signal 503; run the container (failure → 500) and register
the entry.  `dockerOk`, `port`, `sandbox_id` and `runOutcome` stand for the
daemon ping, `_find_free_port()`, `str(uuid.uuid4())[:8]` and
`client.containers.run`. -/
def create_sandbox (reg : Registry) (dockerOk : Bool) (port : Nat)
    (sandbox_id : String) (runOutcome : Except String String) (lang : String) :
    Except HTTPException SandboxResponse × Registry :=
  if lang ≠ "python" then
    (.error ⟨400, "Only python is supported"⟩, reg)
  else if ¬ dockerOk then
    (.error ⟨503, "Docker unavailable"⟩, reg)
  else
    match runOutcome with
    | .error e => (.error ⟨500, e⟩, reg)
    | .ok container =>
      (.ok ⟨sandbox_id, "running", some port⟩,
       reg ++ [(sandbox_id, ⟨sandbox_id, some container, some port, "running"⟩)])

/-- `get_sandbox`: 404 when the id is unknown; otherwise poll the container
status (`poll` stands for `container.reload(); container.status`, returning
`none` when that raises, in which case the status is `"unknown"`; entries
without a container handle keep the initial `"running"`). -/
def get_sandbox (reg : Registry) (poll : String → Option String)
    (sandbox_id : String) : Except HTTPException SandboxResponse :=
  match lookupReg reg sandbox_id with
  | none => .error ⟨404, "Sandbox not found"⟩
  | some info =>
    let status :=
      match info.container with
      | none => "running"
      | some c =>
        match poll c with
        | none => "unknown"
        | some s => s
    .ok ⟨sandbox_id, status, info.port⟩

/-- `execute_code`: pattern-screen the code first, then 404 on unknown id,
then 500 if the stored port is missing/falsy, then POST to the kernel
(`kernel port code` stands for the `httpx` call); `RequestError` → 503;
otherwise propagate the JSON fields with their `.get` defaults.  The
registry is returned unchanged (the handler never writes to it). -/
def execute_code (reg : Registry) (kernel : Nat → String → KernelAnswer)
    (sandbox_id code : String) :
    Except HTTPException ExecReply × Registry :=
  match validate_code code with
  | .error e => (.error e, reg)
  | .ok _ =>
    match lookupReg reg sandbox_id with
    | none => (.error ⟨404, "Sandbox not found"⟩, reg)
    | some info =>
      match info.port with
      | none => (.error ⟨500, "Sandbox port not available"⟩, reg)
      | some p =>
        if p = 0 then
          (.error ⟨500, "Sandbox port not available"⟩, reg)
        else
          match kernel p code with
          | .unreachable m =>
            (.error ⟨503, "Sandbox unreachable: " ++ m⟩, reg)
          | .result t o e s =>
            (.ok ⟨t.getD "result", o.getD "", e.getD "", s.getD true⟩, reg)

/-- `delete_sandbox`: 404 on unknown id; otherwise pop the entry first,
then stop and remove the container (`stop` stands for
`container.stop(timeout=5); container.remove()`, returning the exception
message on failure, which the handler re-raises as 500). -/
def delete_sandbox (reg : Registry) (stop : String → Except String Unit)
    (sandbox_id : String) : Except HTTPException String × Registry :=
  match lookupReg reg sandbox_id with
  | none => (.error ⟨404, "Sandbox not found"⟩, reg)
  | some info =>
    let rest := eraseKey sandbox_id reg
    match info.container with
    | none => (.ok "deleted", rest)
    | some c =>
      match stop c with
      | .error e => (.error ⟨500, e⟩, rest)
      | .ok _ => (.ok "deleted", rest)

/-! ## Execution kernel (`sandbox/kernel_server.py`)

The behaviour of `exec(compile(code, "<sandbox>", "exec"))` under the
captured streams is a parameter: the code completes normally having
written `out`/`err` to the streams, or it raises an exception deriving
from Python's `Exception` whose `str(e)` is `msg` after writing
`out`/`err`, or it raises a `BaseException` outside the `Exception`
hierarchy (`SystemExit`, `KeyboardInterrupt`) — the `except Exception:`
clause of `run_code` catches only the second case, so the third
propagates out of `run_code` uncaught. -/

inductive ExecBehavior where
  | normal (out err : String)
  | raises (out err msg : String)
  | raisesBase (out err msg : String)
deriving DecidableEq

/-- `run_code`: execute under captured stdout/stderr; when the code raises
an `Exception`, write `str(e)` to the stderr capture, set
`success = False`, and return the `(stdout, stderr, success)` triple; a
raised `BaseException` outside the `Exception` hierarchy is not matched by
the `except Exception:` clause and propagates (`Except.error` carries the
uncaught exception's text). -/
def run_code (b : ExecBehavior) : Except String (String × String × Bool) :=
  match b with
  | .normal out err => .ok (out, err, true)
  | .raises out err msg => .ok (out, err ++ msg, false)
  | .raisesBase _ _ msg => .error msg

/-- The kernel's `POST /execute` handler: wrap `run_code`'s triple in the
result envelope; an exception escaping `run_code` propagates out of the
handler. -/
def kernel_execute (b : ExecBehavior) : Except String ExecReply :=
  match run_code b with
  | .ok r => .ok ⟨"result", r.1, r.2.1, r.2.2⟩
  | .error e => .error e

/-! ## Access-control middleware (`sandbox/middleware.py`) -/

/-- Result of `AuthMiddleware.dispatch` on a request: a 401/403 rejection,
or the downstream response `a` (the request reached `call_next`). -/
inductive AuthResult (a : Type) where
  | unauthorized : AuthResult a
  | forbidden : AuthResult a
  | passed (response : a) : AuthResult a
deriving DecidableEq

/-- `auth.split(" ", 1)[1]`: everything after the first space. -/
def afterFirstSpace : List Char → List Char
  | [] => []
  | c :: cs => if c = ' ' then cs else afterFirstSpace cs

/-- The bearer token extracted from the Authorization header value. -/
def bearerToken (auth : String) : String :=
  String.mk (afterFirstSpace auth.data)

/-- `str.startswith` over the character lists. -/
def startsWithStr (pre s : String) : Bool :=
  (dropLit pre.data s.data).isSome

/-- `AuthMiddleware.dispatch`: when `SANDBOX_API_KEY` is set (non-empty),
a missing/empty or non-`Bearer ` Authorization header is a 401, a bearer
token different from the key is a 403, otherwise the request proceeds to
`call_next` whose response `next` is returned unchanged.  When the key is
empty the check is bypassed entirely. -/
def auth_dispatch {a : Type} (apiKey : String) (authHeader : Option String)
    (next : a) : AuthResult a :=
  if apiKey ≠ "" then
    match authHeader with
    | none => .unauthorized
    | some auth =>
      if auth = "" || ¬ startsWithStr "Bearer " auth then .unauthorized
      else if bearerToken auth ≠ apiKey then .forbidden
      else .passed next
  else .passed next

/-- `RATE_LIMIT_WINDOW = 60` seconds. -/
def RATE_LIMIT_WINDOW : Int := 60

/-- `RATE_LIMIT_MAX = 100` requests per window. -/
def RATE_LIMIT_MAX : Nat := 100

/-- One `_RATE_LIMIT` entry: `(count, window_start)`. -/
structure RLEntry where
  count : Nat
  windowStart : Int
deriving DecidableEq

/-- Outcome of `RateLimitMiddleware.dispatch`: the 429 rejection (raised
before the remaining-budget header is set), or a passed-through response
carrying `X-RateLimit-Remaining`. -/
inductive RLResult where
  | rateLimited : RLResult
  | passed (remaining : Int) : RLResult
deriving DecidableEq

def isPassed : RLResult → Bool
  | .rateLimited => false
  | .passed _ => true

/-- The `X-RateLimit-Remaining` header carried by the response, if any. -/
def headerOf : RLResult → Option Int
  | .rateLimited => none
  | .passed r => some r

/-- `RateLimitMiddleware.dispatch` for one client: read the client's
`(count, window_start)` (the `defaultdict` default is `(0, now)`); reset
the window when `now - window_start > RATE_LIMIT_WINDOW`; increment and
store the count; raise 429 when the count exceeds `RATE_LIMIT_MAX`, else
attach `max(0, RATE_LIMIT_MAX - count)` as the remaining budget. -/
def rate_limit_dispatch (entry : Option RLEntry) (now : Int) :
    RLResult × RLEntry :=
  let e0 := entry.getD ⟨0, now⟩
  let cw := if now - e0.windowStart > RATE_LIMIT_WINDOW then
              ((0 : Nat), now)
            else
              (e0.count, e0.windowStart)
  let c := cw.1 + 1
  if c > RATE_LIMIT_MAX then
    (.rateLimited, ⟨c, cw.2⟩)
  else
    (.passed (max 0 ((RATE_LIMIT_MAX : Int) - (c : Int))), ⟨c, cw.2⟩)

/-- A sequence of requests from one client, given their arrival times. -/
def runRequests : Option RLEntry → List Int → List RLResult × Option RLEntry
  | st, [] => ([], st)
  | st, t :: ts =>
    let r := rate_limit_dispatch st t
    let rest := runRequests (some r.2) ts
    (r.1 :: rest.1, rest.2)

/-! ## Dynamic tools (`tools/dynamic_tools.py`)

`ast.parse` on the assembled source is a parameter: either a `SyntaxError`
(its message) or the parsed tree, given as the list of nodes `ast.walk`
yields.  Each walked node is modelled shallowly: only the node kinds the
validator inspects are distinguished; an `Attribute` node records whether
its `value` child is a `Name` (and that name).  The `exec` of the
validated source is a parameter as well. -/

/-- One node yielded by `ast.walk` over the parsed tree. -/
inductive PyNode where
  | importStmt : PyNode
  | importFromStmt : PyNode
  | globalStmt : PyNode
  | nonlocalStmt : PyNode
  | lambdaExpr : PyNode
  | asyncFunctionDef : PyNode
  | classDef : PyNode
  | name (id : String) : PyNode
  | attribute (valueName : Option String) (attr : String) : PyNode
  | otherNode (kind : String) : PyNode
deriving DecidableEq

/-- `FORBIDDEN_NAMES`. -/
def FORBIDDEN_NAMES : List String :=
  ["os", "sys", "subprocess", "eval", "exec", "compile", "__import__", "open"]

/-- The check `_validate_ast` applies to a single walked node, returning
the `ValueError` message when the node is forbidden. -/
def checkNode : PyNode → Option String
  | .importStmt => some "Forbidden construct: Import"
  | .importFromStmt => some "Forbidden construct: ImportFrom"
  | .globalStmt => some "Forbidden construct: Global"
  | .nonlocalStmt => some "Forbidden construct: Nonlocal"
  | .lambdaExpr => some "Forbidden construct: Lambda"
  | .asyncFunctionDef => some "Forbidden construct: AsyncFunctionDef"
  | .classDef => some "Forbidden construct: ClassDef"
  | .name id =>
    if id ∈ FORBIDDEN_NAMES then some ("Forbidden name: " ++ id) else none
  | .attribute v attr =>
    match v with
    | some vid =>
      if vid ∈ FORBIDDEN_NAMES then
        some ("Forbidden attribute: " ++ vid ++ "." ++ attr)
      else none
    | none => none
  | .otherNode _ => none

/-- The walk loop of `_validate_ast`: first forbidden node wins. -/
def walkErr : List PyNode → Option String
  | [] => none
  | n :: ns =>
    match checkNode n with
    | some e => some e
    | none => walkErr ns

/-- A Python exception from `_compile_and_create_tool`: the `except`
clauses of `generate_tool` distinguish `ValueError` from the rest. -/
inductive PyErr where
  | valueError (msg : String) : PyErr
  | otherErr (msg : String) : PyErr
deriving DecidableEq

/-- `_validate_ast`: a `SyntaxError` from `ast.parse` becomes
`ValueError("Invalid syntax: ...")`; a forbidden walked node raises
`ValueError` with its message. -/
def _validate_ast (parsed : Except String (List PyNode)) :
    Except PyErr Unit :=
  match parsed with
  | .error e => .error (.valueError ("Invalid syntax: " ++ e))
  | .ok nodes =>
    match walkErr nodes with
    | some msg => .error (.valueError msg)
    | none => .ok ()

/-- `_assemble_function`: build the function source from its components. -/
def _assemble_function (name args code doc : String) : String :=
  let indented := String.intercalate "\n    " ((code.trim).splitOn "\n")
  "def " ++ name ++ "(" ++ args ++ "):\n    \"\"\"" ++ doc ++ "\"\"\"\n    "
    ++ indented ++ "\n"

/-- `_compile_and_create_tool`: validate the assembled source, then `exec`
it (`execOut` is the outcome of `exec` plus the `local[name]` lookup and
`Tool` construction, which can raise any exception). -/
def _compile_and_create_tool (parsed : Except String (List PyNode))
    (execOut : Except PyErr Unit) : Except PyErr Unit := do
  _validate_ast parsed
  execOut

/-- Python `str.isidentifier` (ASCII fragment). -/
def isIdentifier (s : String) : Bool :=
  match s.data with
  | [] => false
  | c :: cs =>
    (c.isAlpha || c = '_') && cs.all (fun d => d.isAlpha || d = '_' || d.isDigit)

/-- Metadata stored in `_dynamic_tool_registry` (the source stores the
short uuid under the key `created_at`). -/
structure ToolMeta where
  args : String
  doc : String
  created_at : String
deriving DecidableEq

/-- The state `generate_tool` mutates: the in-memory registry
`_dynamic_tool_registry` (name → metadata; the compiled function object is
not modelled) and the persisted store `DYNAMIC_TOOLS_DIR` (filename →
source text). -/
structure ToolState where
  registry : List (String × ToolMeta)
  storage : List (String × String)
deriving DecidableEq

/-- Registry lookup (`name in _dynamic_tool_registry`). -/
def lookupTool (reg : List (String × ToolMeta)) (k : String) :
    Option ToolMeta :=
  match reg with
  | [] => none
  | p :: rest => if p.1 = k then some p.2 else lookupTool rest k

/-- `generate_tool`: refuse an existing name; refuse a non-identifier
name; validate and compile (a `ValueError` reports "Validation failed",
any other exception "Compilation failed", both leaving the state alone);
otherwise register the tool under `name` and persist its source under
`name_toolid.py`.  `tool_id` stands for `str(uuid.uuid4())[:8]`. -/
def generate_tool (st : ToolState) (name args code doc : String)
    (parsed : Except String (List PyNode)) (execOut : Except PyErr Unit)
    (tool_id : String) : String × ToolState :=
  if (lookupTool st.registry name).isSome then
    ("Error: Tool \x27" ++ name ++ "\x27 already exists. Choose a different name.", st)
  else if ¬ isIdentifier name then
    ("Error: \x27" ++ name ++ "\x27 is not a valid Python identifier.", st)
  else
    match _compile_and_create_tool parsed execOut with
    | .error (.valueError e) => ("Validation failed: " ++ e, st)
    | .error (.otherErr e) => ("Compilation failed: " ++ e, st)
    | .ok _ =>
      ("Tool \x27" ++ name ++ "\x27 registered successfully. It will be available in future runs.",
       ⟨st.registry ++ [(name, ⟨args, doc, tool_id⟩)],
        st.storage ++ [(name ++ "_" ++ tool_id ++ ".py",
                        _assemble_function name args code doc)]⟩)

/-! ## Helper lemmas -/

theorem lookup_eraseKey_self (k : String) (reg : Registry) :
    lookupReg (eraseKey k reg) k = none := by
  induction reg with
  | nil => rfl
  | cons p rest ih =>
    by_cases h : p.1 = k
    · simpa [eraseKey, h] using ih
    · simp [eraseKey, h, lookupReg, ih]

theorem lookup_eraseKey_ne (k x : String) (reg : Registry) (h : x ≠ k) :
    lookupReg (eraseKey k reg) x = lookupReg reg x := by
  induction reg with
  | nil => rfl
  | cons p rest ih =>
    by_cases hk : p.1 = k
    · have hx : p.1 ≠ x := by
        rw [hk]
        exact fun hc => h hc.symm
      simp [eraseKey, hk, lookupReg, hx, ih, Ne.symm h]
    · by_cases hx : p.1 = x
      · simp [eraseKey, hk, lookupReg, hx, h]
      · simp [eraseKey, hk, lookupReg, hx, ih]

theorem walkErr_isSome_of_mem {n : PyNode} {ns : List PyNode}
    (hmem : n ∈ ns) (hbad : (checkNode n).isSome) :
    (walkErr ns).isSome := by
  induction ns with
  | nil => cases hmem
  | cons m rest ih =>
    rcases List.mem_cons.mp hmem with h | h
    · subst h
      rcases hn : checkNode n with _ | e
      · rw [hn] at hbad
        simp at hbad
      · simp [walkErr, hn]
    · rcases hm : checkNode m with _ | e
      · simpa [walkErr, hm] using ih h
      · simp [walkErr, hm]

/-- Requests that stay inside the current window and inside the budget all
pass, and the window start never moves. -/
theorem runRequests_in_window (ts : List Int) :
    ∀ (c : Nat) (w : Int), (∀ t ∈ ts, t - w ≤ RATE_LIMIT_WINDOW) →
      c + ts.length ≤ RATE_LIMIT_MAX →
      (runRequests (some ⟨c, w⟩) ts).1.all isPassed = true ∧
      (runRequests (some ⟨c, w⟩) ts).2 = some ⟨c + ts.length, w⟩ := by
  induction ts with
  | nil =>
    intro c w _ _
    simp [runRequests]
  | cons t rest ih =>
    intro c w hin hbud
    have ht : t - w ≤ RATE_LIMIT_WINDOW := hin t (List.mem_cons_self t rest)
    have hreset : ¬ (t - w > RATE_LIMIT_WINDOW) := not_lt.mpr ht
    have hc1 : c + 1 ≤ RATE_LIMIT_MAX := by
      have := hbud
      simp [List.length_cons] at this
      omega
    have hstep : rate_limit_dispatch (some ⟨c, w⟩) t =
        (.passed (max 0 ((RATE_LIMIT_MAX : Int) - ((c + 1 : Nat) : Int))), ⟨c + 1, w⟩) := by
      simp [rate_limit_dispatch, hreset, Nat.not_lt.mpr hc1]
    have hrest := ih (c + 1) w
      (fun t ht => hin t (List.mem_cons_of_mem _ ht))
      (by simp [List.length_cons] at hbud; omega)
    constructor
    · simp only [runRequests, hstep, List.all_cons, isPassed, Bool.true_and]
      exact hrest.1
    · simp only [runRequests, hstep]
      rw [hrest.2]
      simp only [List.length_cons, Option.some.injEq, RLEntry.mk.injEq]
      exact ⟨by omega, trivial⟩

theorem lookup_append_ne (reg : Registry) (k x : String) (v : SandboxInfo)
    (h : x ≠ k) : lookupReg (reg ++ [(k, v)]) x = lookupReg reg x := by
  induction reg with
  | nil => simp [lookupReg, Ne.symm h]
  | cons p rest ih =>
    by_cases hx : p.1 = x
    · simp [lookupReg, hx]
    · simp [lookupReg, hx, ih]

/-! ## Claims -/

/-- C1, counterexample.  The claim says tool registration rejects every
submission matching the pattern denylist.  The body
`return breakpoint()` matches the `breakpoint\s*\(` pattern, yet
`generate_tool` screens only the syntax tree (which does not forbid
`breakpoint`), so the tool is registered and persisted.  `c1nodes` is the
walk of the parse of the assembled source
`def probe(x):` / `    \"\"\"doc\"\"\"` / `    return breakpoint()`. -/
def c1nodes : List PyNode :=
  [.otherNode "Module", .otherNode "FunctionDef", .otherNode "arguments",
   .otherNode "Expr", .otherNode "Return", .otherNode "arg",
   .otherNode "Constant", .otherNode "Call", .name "breakpoint",
   .otherNode "Load"]

def c1call : String × ToolState :=
  generate_tool ⟨[], []⟩ "probe" "x" "return breakpoint()" "doc"
    (.ok c1nodes) (.ok ()) "abc12345"

/-- C1: a code string matching the dangerous-pattern denylist is
nevertheless registered and persisted by `generate_tool`, refuting the
claim's tool-registration half. -/
theorem C1_counterexample :
    dangerousMatch "return breakpoint()" = true ∧
    c1call.1 =
      "Tool \x27probe\x27 registered successfully. It will be available in future runs." ∧
    lookupTool c1call.2.registry "probe" = some ⟨"x", "doc", "abc12345"⟩ ∧
    c1call.2.storage ≠ [] := by
  refine ⟨by decide, by decide, by decide, by decide⟩

/-- C1 (amended): for every code string matching the dangerous-pattern
denylist, `execute` rejects with 400 before any kernel call — the result
is the same for every kernel function and the registry is untouched.  (The
tool-registration half of the original claim is refuted by
`C1_counterexample`: `generate_tool` applies only the syntax-tree screen.) -/
theorem C1_pattern_screen_execute (reg : Registry)
    (kernel : Nat → String → KernelAnswer) (sid code : String)
    (h : dangerousMatch code = true) :
    (execute_code reg kernel sid code).1 =
      .error ⟨400, "Code contains forbidden patterns"⟩ ∧
    (execute_code reg kernel sid code).2 = reg := by
  constructor <;> simp [execute_code, validate_code, h]

/-- C1, witness for `C1_pattern_screen_execute`. -/
theorem C1_witness :
    dangerousMatch "eval(x)" = true ∧
    ((execute_code [] (fun _ _ => .unreachable "") "s" "eval(x)").1 =
      .error ⟨400, "Code contains forbidden patterns"⟩ ∧
     (execute_code [] (fun _ _ => .unreachable "") "s" "eval(x)").2 = []) :=
  ⟨by decide,
   C1_pattern_screen_execute [] (fun _ _ => .unreachable "") "s" "eval(x)" (by decide)⟩

/-- C2: a submission whose assembled source has a syntax error, or whose
syntax tree contains a forbidden node kind or a forbidden
identifier/attribute access, is rejected (the state is unchanged: nothing
registered, nothing persisted), and — when the name itself was admissible —
the reported message is a validation error, not a crash. -/
theorem C2_ast_screen_rejects (st : ToolState) (name args code doc : String)
    (parsed : Except String (List PyNode)) (execOut : Except PyErr Unit)
    (tool_id : String)
    (h : (∃ s, parsed = .error s) ∨
         (∃ ns, parsed = .ok ns ∧ ∃ n ∈ ns, (checkNode n).isSome)) :
    (generate_tool st name args code doc parsed execOut tool_id).2 = st ∧
    (lookupTool st.registry name = none → isIdentifier name = true →
      ∃ e, (generate_tool st name args code doc parsed execOut tool_id).1 =
        "Validation failed: " ++ e) := by
  have hval : ∃ e, _validate_ast parsed = .error (.valueError e) := by
    rcases h with ⟨s, hs⟩ | ⟨ns, hns, n, hmem, hbad⟩
    · exact ⟨"Invalid syntax: " ++ s, by simp [hs, _validate_ast]⟩
    · have hsome := walkErr_isSome_of_mem hmem hbad
      rcases Option.isSome_iff_exists.mp hsome with ⟨msg, hmsg⟩
      exact ⟨msg, by simp [hns, _validate_ast, hmsg]⟩
  rcases hval with ⟨e, he⟩
  have hcc : _compile_and_create_tool parsed execOut = .error (.valueError e) := by
    unfold _compile_and_create_tool
    rw [he]
    rfl
  by_cases hdup : (lookupTool st.registry name).isSome
  · refine ⟨by simp [generate_tool, hdup], ?_⟩
    intro hnone _
    rw [hnone] at hdup
    simp at hdup
  · by_cases hid : isIdentifier name = true
    · refine ⟨by simp [generate_tool, hdup, hid, hcc], ?_⟩
      intro _ _
      exact ⟨e, by simp [generate_tool, hdup, hid, hcc]⟩
    · refine ⟨by simp [generate_tool, hdup, hid], ?_⟩
      intro _ hid2
      exact absurd hid2 hid

/-- C2, witness: `import os` in the body yields an `Import` node; the
submission is rejected and the state is unchanged. -/
theorem C2_witness :
    (generate_tool ⟨[], []⟩ "f" "" "import os" "d"
        (.ok [.otherNode "Module", .otherNode "FunctionDef", .importStmt])
        (.ok ()) "t1").2 = (⟨[], []⟩ : ToolState) ∧
    (lookupTool (⟨[], []⟩ : ToolState).registry "f" = none →
      isIdentifier "f" = true →
      ∃ e, (generate_tool ⟨[], []⟩ "f" "" "import os" "d"
        (.ok [.otherNode "Module", .otherNode "FunctionDef", .importStmt])
        (.ok ()) "t1").1 = "Validation failed: " ++ e) :=
  C2_ast_screen_rejects ⟨[], []⟩ "f" "" "import os" "d"
    (.ok [.otherNode "Module", .otherNode "FunctionDef", .importStmt])
    (.ok ()) "t1"
    (Or.inr ⟨[.otherNode "Module", .otherNode "FunctionDef", .importStmt], rfl,
      .importStmt, by simp, by decide⟩)

/-- C3, counterexample.  The claim says every exception raised by the
submitted code is caught and `run_code` returns normally; but the source
catches only `except Exception:`, so a raised `SystemExit` (a
`BaseException` outside the `Exception` hierarchy — and one whose code
passes the pattern screen) escapes `run_code`: no triple is returned and
the exception text is never appended to the stderr capture. -/
theorem C3_counterexample :
    run_code (.raisesBase "out" "err" "SystemExit: 0") =
      .error "SystemExit: 0" ∧
    run_code (.raisesBase "out" "err" "SystemExit: 0") ≠
      .ok ("out", "err" ++ "SystemExit: 0", false) :=
  ⟨rfl, fun h => Except.noConfusion h⟩

/-- C3 (amended): whenever the executed code raises an exception deriving
from Python's `Exception`, it is caught, its textual description is
appended to the captured stderr, `success` is `false`, and `run_code`
returns normally (the kernel handler wraps the triple in the result
envelope); normal completion returns the captures with `success = true`;
but an exception outside the `Exception` hierarchy (`SystemExit`,
`KeyboardInterrupt`) propagates out of `run_code` uncaught. -/
theorem C3_run_code_catches_exception (out err msg : String) :
    run_code (.raises out err msg) = .ok (out, err ++ msg, false) ∧
    run_code (.normal out err) = .ok (out, err, true) ∧
    run_code (.raisesBase out err msg) = .error msg ∧
    kernel_execute (.raises out err msg) =
      .ok ⟨"result", out, err ++ msg, false⟩ :=
  ⟨rfl, rfl, rfl, rfl⟩

/-- C4, counterexample.  The claim says an unknown id yields 404 regardless
of code content; but `execute_code` pattern-screens first, so an unknown id
with denylisted code yields 400, not 404. -/
theorem C4_counterexample :
    lookupReg [] "nope" = none ∧
    (execute_code [] (fun _ _ => .result none none none none) "nope"
      "import sys").1 = .error ⟨400, "Code contains forbidden patterns"⟩ := by
  refine ⟨rfl, by rfl⟩

/-- C4 (amended): for every id not in the registry and every code string
that passes the pattern screen, `execute` returns 404, for every kernel. -/
theorem C4_not_found (reg : Registry) (kernel : Nat → String → KernelAnswer)
    (sid code : String) (hcode : dangerousMatch code = false)
    (hid : lookupReg reg sid = none) :
    (execute_code reg kernel sid code).1 = .error ⟨404, "Sandbox not found"⟩ := by
  simp [execute_code, validate_code, hcode, hid]

/-- C4, witness for `C4_not_found`. -/
theorem C4_witness :
    dangerousMatch "1+1" = false ∧ lookupReg [] "nope" = none ∧
    (execute_code [] (fun _ _ => .result none none none none) "nope" "1+1").1 =
      .error ⟨404, "Sandbox not found"⟩ :=
  ⟨by decide, rfl,
   C4_not_found [] (fun _ _ => .result none none none none) "nope" "1+1"
     (by decide) rfl⟩

/-- C5: registering under a name that already exists in the dynamic tool
registry is refused with the duplicate-name error and leaves the registry
and the persisted storage unchanged, whatever the submission's code. -/
theorem C5_no_overwrite (st : ToolState) (name args code doc : String)
    (parsed : Except String (List PyNode)) (execOut : Except PyErr Unit)
    (tool_id : String) (m : ToolMeta)
    (h : lookupTool st.registry name = some m) :
    generate_tool st name args code doc parsed execOut tool_id =
      ("Error: Tool \x27" ++ name ++ "\x27 already exists. Choose a different name.",
       st) := by
  simp [generate_tool, h]

/-- C5, witness for `C5_no_overwrite`. -/
theorem C5_witness :
    generate_tool ⟨[("f", ⟨"", "d", "t0"⟩)], [("f_t0.py", "src")]⟩ "f" "x"
        "return x" "d2" (.ok []) (.ok ()) "t1" =
      ("Error: Tool \x27f\x27 already exists. Choose a different name.",
       ⟨[("f", ⟨"", "d", "t0"⟩)], [("f_t0.py", "src")]⟩) :=
  C5_no_overwrite ⟨[("f", ⟨"", "d", "t0"⟩)], [("f_t0.py", "src")]⟩ "f" "x"
    "return x" "d2" (.ok []) (.ok ()) "t1" ⟨"", "d", "t0"⟩ rfl

/-- C6: from a fresh rate-limiter state, 100 requests whose times stay
within 60 seconds of the first all pass; the 101st request inside the same
window is rejected with the rate-limited error; and the first request made
once the elapsed time since the window start exceeds 60 seconds passes
again (the window resets to count 1). -/
theorem C6_rate_limit_window (t0 : Int) (ts : List Int) (t101 tNew : Int)
    (hlen : ts.length = 99) (hin : ∀ t ∈ ts, t - t0 ≤ 60)
    (h101 : t101 - t0 ≤ 60) (hnew : tNew - t0 > 60) :
    (runRequests none (t0 :: ts)).1.all isPassed = true ∧
    (runRequests none (t0 :: ts)).2 = some ⟨100, t0⟩ ∧
    (rate_limit_dispatch (some ⟨100, t0⟩) t101).1 = .rateLimited ∧
    (rate_limit_dispatch (some ⟨100, t0⟩) t101).2 = ⟨101, t0⟩ ∧
    (rate_limit_dispatch (some ⟨101, t0⟩) tNew).1 = .passed 99 ∧
    (rate_limit_dispatch (some ⟨101, t0⟩) tNew).2 = ⟨1, tNew⟩ := by
  have hstep0 : rate_limit_dispatch none t0 = (.passed 99, ⟨1, t0⟩) := by
    norm_num [rate_limit_dispatch, RATE_LIMIT_WINDOW, RATE_LIMIT_MAX]
  have hrun := runRequests_in_window ts 1 t0
    (by intro t ht; simpa [RATE_LIMIT_WINDOW] using hin t ht)
    (by simp [hlen, RATE_LIMIT_MAX])
  have hr101 : ¬ (t101 - t0 > RATE_LIMIT_WINDOW) := by
    simp only [RATE_LIMIT_WINDOW]
    omega
  refine ⟨?_, ?_, ?_, ?_, ?_, ?_⟩
  · simp only [runRequests, hstep0, List.all_cons, isPassed, Bool.true_and]
    exact hrun.1
  · simp only [runRequests, hstep0]
    rw [hrun.2]
    norm_num [hlen]
  · norm_num [rate_limit_dispatch, hr101, RATE_LIMIT_MAX]
  · norm_num [rate_limit_dispatch, hr101, RATE_LIMIT_MAX]
  · have : tNew - t0 > RATE_LIMIT_WINDOW := by
      simp only [RATE_LIMIT_WINDOW]
      omega
    norm_num [rate_limit_dispatch, this, RATE_LIMIT_MAX]
  · have : tNew - t0 > RATE_LIMIT_WINDOW := by
      simp only [RATE_LIMIT_WINDOW]
      omega
    norm_num [rate_limit_dispatch, this, RATE_LIMIT_MAX]

/-- C6, witness for `C6_rate_limit_window` (all 101 requests at time 0,
then one at time 61). -/
theorem C6_witness :
    (runRequests none ((0 : Int) :: List.replicate 99 (0 : Int))).1.all isPassed = true ∧
    (runRequests none ((0 : Int) :: List.replicate 99 (0 : Int))).2 = some ⟨100, 0⟩ ∧
    (rate_limit_dispatch (some ⟨100, 0⟩) 0).1 = .rateLimited ∧
    (rate_limit_dispatch (some ⟨100, 0⟩) 0).2 = ⟨101, 0⟩ ∧
    (rate_limit_dispatch (some ⟨101, 0⟩) 61).1 = .passed 99 ∧
    (rate_limit_dispatch (some ⟨101, 0⟩) 61).2 = ⟨1, 61⟩ :=
  C6_rate_limit_window 0 (List.replicate 99 0) 0 61
    (by simp) (by intro t ht; simp at ht; omega) (by omega) (by omega)

/-- C7, counterexample.  The claim says every response, including the
rate-limited rejection, carries the `X-RateLimit-Remaining` header; but the
429 is raised before the header is attached, so the rejected response
carries none. -/
theorem C7_counterexample :
    (rate_limit_dispatch (some ⟨100, 0⟩) 0).1 = .rateLimited ∧
    headerOf (rate_limit_dispatch (some ⟨100, 0⟩) 0).1 = none := by
  refine ⟨by rfl, by rfl⟩

/-- C7 (amended): every passed-through response carries the
`X-RateLimit-Remaining` header with value
`max(0, RATE_LIMIT_MAX - count)` for the client's current window, while
the rate-limited rejection carries no such header. -/
theorem C7_remaining_header (entry : Option RLEntry) (now : Int) :
    (isPassed (rate_limit_dispatch entry now).1 = true →
      headerOf (rate_limit_dispatch entry now).1 =
        some (max 0 ((RATE_LIMIT_MAX : Int) -
          ((rate_limit_dispatch entry now).2.count : Int)))) ∧
    ((rate_limit_dispatch entry now).1 = .rateLimited →
      headerOf (rate_limit_dispatch entry now).1 = none) := by
  unfold rate_limit_dispatch
  dsimp only
  split
  · split
    · refine ⟨fun h => ?_, fun _ => rfl⟩
      simp [isPassed] at h
    · refine ⟨fun _ => rfl, fun h => ?_⟩
      simp at h
  · split
    · refine ⟨fun h => ?_, fun _ => rfl⟩
      simp [isPassed] at h
    · refine ⟨fun _ => rfl, fun h => ?_⟩
      simp at h

/-- C7, witness for `C7_remaining_header`. -/
theorem C7_witness :
    isPassed (rate_limit_dispatch none 0).1 = true ∧
    headerOf (rate_limit_dispatch none 0).1 =
      some (max 0 ((RATE_LIMIT_MAX : Int) -
        ((rate_limit_dispatch none 0).2.count : Int))) :=
  ⟨by rfl, (C7_remaining_header none 0).1 (by rfl)⟩

/-- C8: when an API key is configured (non-empty), a missing Authorization
header or one not starting with `Bearer ` is rejected as 401, a bearer
token differing from the key is rejected as 403 — in every case without
the downstream handler's response being produced — and a matching token
passes the response through; with no key configured every request passes. -/
theorem C8_auth (key : String) (hdr : Option String) (next : Nat) :
    (key ≠ "" → hdr = none → auth_dispatch key hdr next = .unauthorized) ∧
    (key ≠ "" → ∀ s, hdr = some s → startsWithStr "Bearer " s = false →
      auth_dispatch key hdr next = .unauthorized) ∧
    (key ≠ "" → ∀ s, hdr = some s → startsWithStr "Bearer " s = true →
      bearerToken s ≠ key → auth_dispatch key hdr next = .forbidden) ∧
    (key ≠ "" → ∀ s, hdr = some s → startsWithStr "Bearer " s = true →
      bearerToken s = key → auth_dispatch key hdr next = .passed next) ∧
    (key = "" → auth_dispatch key hdr next = .passed next) := by
  refine ⟨?_, ?_, ?_, ?_, ?_⟩
  · intro hk hn
    simp [auth_dispatch, hk, hn]
  · intro hk s hs hsw
    simp [auth_dispatch, hk, hs, hsw]
  · intro hk s hs hsw htok
    have hne : ¬ s = "" := by
      intro hse
      rw [hse] at hsw
      exact absurd hsw (by decide)
    simp [auth_dispatch, hk, hs, hsw, hne, htok]
  · intro hk s hs hsw htok
    have hne : ¬ s = "" := by
      intro hse
      rw [hse] at hsw
      exact absurd hsw (by decide)
    simp [auth_dispatch, hk, hs, hsw, hne, htok]
  · intro hk
    simp [auth_dispatch, hk]

/-- C8, witness for `C8_auth`: each of the four behaviours at concrete
inputs. -/
theorem C8_witness :
    auth_dispatch "k" (some "Bearer k") (0 : Nat) = .passed 0 ∧
    auth_dispatch "k" (some "Bearer x") (0 : Nat) = .forbidden ∧
    auth_dispatch "k" (none : Option String) (0 : Nat) = .unauthorized ∧
    auth_dispatch "k" (some "Basic abc") (0 : Nat) = .unauthorized ∧
    auth_dispatch "" (some "anything") (0 : Nat) = .passed 0 :=
  ⟨(C8_auth "k" (some "Bearer k") 0).2.2.2.1 (by decide) "Bearer k" rfl
     (by decide) (by decide),
   (C8_auth "k" (some "Bearer x") 0).2.2.1 (by decide) "Bearer x" rfl
     (by decide) (by decide),
   (C8_auth "k" none 0).1 (by decide) rfl,
   (C8_auth "k" (some "Basic abc") 0).2.1 (by decide) "Basic abc" rfl
     (by decide),
   (C8_auth "" (some "anything") 0).2.2.2.2 rfl⟩

/-- C9, concrete registry and kernel used by the counterexample and the
witness. -/
def c9reg : Registry :=
  [("a1b2c3d4", ⟨"a1b2c3d4", some "cont0", some 49152, "running"⟩)]

def c9kernel : Nat → String → KernelAnswer :=
  fun _ _ => .result (some "result") (some "4\n") (some "") (some true)

/-- C9, counterexample.  The claim says `execute` updates the entry's
`last_used_at` timestamp.  A successful `execute` returns the registry
byte-for-byte unchanged: no field of the entry is updated, and the entry —
as created by `create_sandbox` — carries no `last_used_at` field at all
(`SandboxInfo` has exactly `id`, `container`, `port`, `status`). -/
theorem C9_counterexample :
    (execute_code c9reg c9kernel "a1b2c3d4" "print(2+2)").1 =
      .ok ⟨"result", "4\n", "", true⟩ ∧
    (execute_code c9reg c9kernel "a1b2c3d4" "print(2+2)").2 = c9reg := by
  refine ⟨by rfl, by rfl⟩

/-- C9 (amended): `execute` performs no mutation whatsoever on the
registry (there is no `last_used_at` field to update); entries under other
ids are untouched by `delete`; and `create` leaves every pre-existing
entry unchanged — so after creation an entry is only ever removed (by
deletion), never modified. -/
theorem C9_frame :
    (∀ (reg : Registry) (kernel : Nat → String → KernelAnswer)
       (sid code : String), (execute_code reg kernel sid code).2 = reg) ∧
    (∀ (reg : Registry) (stop : String → Except String Unit) (sid x : String),
       x ≠ sid →
       lookupReg (delete_sandbox reg stop sid).2 x = lookupReg reg x) ∧
    (∀ (reg : Registry) (dockerOk : Bool) (port : Nat)
       (sid : String) (runOutcome : Except String String) (lang x : String),
       x ≠ sid →
       lookupReg (create_sandbox reg dockerOk port sid runOutcome lang).2 x =
         lookupReg reg x) := by
  refine ⟨?_, ?_, ?_⟩
  · intro reg kernel sid code
    unfold execute_code
    repeat' split
    all_goals rfl
  · intro reg stop sid x hx
    unfold delete_sandbox
    repeat' split
    all_goals first
      | rfl
      | exact lookup_eraseKey_ne sid x reg hx
  · intro reg dockerOk port sid runOutcome lang x hx
    unfold create_sandbox
    by_cases hl : lang = "python"
    · by_cases hd : dockerOk
      · cases runOutcome with
        | error e => simp [hl, hd]
        | ok c => simp [hl, hd, lookup_append_ne reg sid x _ hx]
      · simp [hl, hd]
    · simp [hl]

/-- C9, witness for `C9_frame`. -/
theorem C9_witness :
    (execute_code c9reg c9kernel "a1b2c3d4" "1+1").2 = c9reg ∧
    lookupReg (delete_sandbox c9reg (fun _ => .ok ()) "a1b2c3d4").2 "other" =
      lookupReg c9reg "other" ∧
    lookupReg (create_sandbox c9reg true 40001 "e5f6a7b8" (.ok "cont1")
        "python").2 "a1b2c3d4" = lookupReg c9reg "a1b2c3d4" :=
  ⟨C9_frame.1 c9reg c9kernel "a1b2c3d4" "1+1",
   C9_frame.2.1 c9reg (fun _ => .ok ()) "a1b2c3d4" "other" (by decide),
   C9_frame.2.2 c9reg true 40001 "e5f6a7b8" (.ok "cont1") "python" "a1b2c3d4"
     (by decide)⟩

/-- C10, concrete registry used by the counterexample. -/
def c10reg : Registry :=
  [("dead", ⟨"dead", some "c1", some 40000, "running"⟩)]

/-- C10, counterexample.  `delete` removes the entry before the container
stop fails (500), as the claim says — but the claim also says a subsequent
`execute(id, code)` returns `NotFound`; for code matching the pattern
denylist `execute` returns 400 instead. -/
theorem C10_counterexample :
    (delete_sandbox c10reg (fun _ => .error "stop failed") "dead").1 =
      .error ⟨500, "stop failed"⟩ ∧
    (delete_sandbox c10reg (fun _ => .error "stop failed") "dead").2 = [] ∧
    (execute_code [] (fun _ _ => .result none none none none) "dead"
      "import os").1 = .error ⟨400, "Code contains forbidden patterns"⟩ := by
  refine ⟨by rfl, by rfl, by rfl⟩

/-- C10 (amended): deleting a registered id removes its entry before the
container is stopped, so even when stopping fails and 500 is returned the
entry stays removed: a subsequent `get`, `delete`, or `execute` with code
passing the pattern screen all return 404 (dangerous code still gets the
pattern screen's 400 first). -/
theorem C10_delete_not_atomic (reg : Registry)
    (stop : String → Except String Unit) (sid : String) (info : SandboxInfo)
    (c e : String) (hlook : lookupReg reg sid = some info)
    (hc : info.container = some c) (hstop : stop c = .error e) :
    (delete_sandbox reg stop sid).1 = .error ⟨500, e⟩ ∧
    (delete_sandbox reg stop sid).2 = eraseKey sid reg ∧
    lookupReg (delete_sandbox reg stop sid).2 sid = none ∧
    (∀ poll, get_sandbox (delete_sandbox reg stop sid).2 poll sid =
      .error ⟨404, "Sandbox not found"⟩) ∧
    (∀ stop2, (delete_sandbox (delete_sandbox reg stop sid).2 stop2 sid).1 =
      .error ⟨404, "Sandbox not found"⟩) ∧
    (∀ (kernel : Nat → String → KernelAnswer) (code : String),
      dangerousMatch code = false →
      (execute_code (delete_sandbox reg stop sid).2 kernel sid code).1 =
        .error ⟨404, "Sandbox not found"⟩) := by
  have hdel : delete_sandbox reg stop sid =
      (.error ⟨500, e⟩, eraseKey sid reg) := by
    simp [delete_sandbox, hlook, hc, hstop]
  have hnone : lookupReg (eraseKey sid reg) sid = none :=
    lookup_eraseKey_self sid reg
  refine ⟨by rw [hdel], by rw [hdel], ?_, ?_, ?_, ?_⟩
  · rw [hdel]
    exact hnone
  · intro poll
    rw [hdel]
    simp [get_sandbox, hnone]
  · intro stop2
    rw [hdel]
    simp [delete_sandbox, hnone]
  · intro kernel code hcode
    rw [hdel]
    simp [execute_code, validate_code, hcode, hnone]

/-- C10, witness for `C10_delete_not_atomic`. -/
theorem C10_witness :
    (delete_sandbox c10reg (fun _ => .error "boom") "dead").1 =
      .error ⟨500, "boom"⟩ ∧
    (delete_sandbox c10reg (fun _ => .error "boom") "dead").2 =
      eraseKey "dead" c10reg ∧
    lookupReg (delete_sandbox c10reg (fun _ => .error "boom") "dead").2
      "dead" = none ∧
    (∀ poll, get_sandbox
      (delete_sandbox c10reg (fun _ => .error "boom") "dead").2 poll "dead" =
      .error ⟨404, "Sandbox not found"⟩) ∧
    (∀ stop2, (delete_sandbox
      (delete_sandbox c10reg (fun _ => .error "boom") "dead").2 stop2
      "dead").1 = .error ⟨404, "Sandbox not found"⟩) ∧
    (∀ (kernel : Nat → String → KernelAnswer) (code : String),
      dangerousMatch code = false →
      (execute_code (delete_sandbox c10reg (fun _ => .error "boom") "dead").2
        kernel "dead" code).1 = .error ⟨404, "Sandbox not found"⟩) :=
  C10_delete_not_atomic c10reg (fun _ => .error "boom") "dead"
    ⟨"dead", some "c1", some 40000, "running"⟩ "c1" "boom" rfl rfl rfl

end LRA
